import Mathlib

/-!
Verification of the agent's task/executor orchestration engine of
klueska/mesos against its natural-language specification (spec.md).

The repository sources available here are `src/src/tests/slave_tests.cpp`
(the agent's test suite) and `src/src/slave/containerizer/mesos/launcher.hpp`
(the process-launch interface).  The agent implementation itself
(`slave.cpp`, the status update manager) is not part of the sources, so the
behaviour below is modelled from the specification, with the observable
behaviour pinned by the assertions of the in-repository tests.
-/

namespace Mesos

/-- Modelled from the spec: task lifecycle states of the Task State Machine
(spec.md section 4.3); the implementing `slave.cpp` is not in the sources. -/
inductive TaskState
  | staging
  | starting
  | running
  | finished
  | failed
  | killed
  | lost
  | gone
  deriving DecidableEq, Repr

/-- A state is terminal when it ends the task's lifecycle (section 4.3). -/
def TaskState.isTerminal : TaskState → Bool
  | .finished => true
  | .failed => true
  | .killed => true
  | .lost => true
  | .gone => true
  | _ => false

/-- Source of a status update (slave, executor or master), as carried by
`TaskStatus::source` in the tests. -/
inductive StatusSource
  | sourceMaster
  | sourceSlave
  | sourceExecutor
  deriving DecidableEq, Repr

/-- Machine-readable reasons carried by status updates in the tests. -/
inductive StatusReason
  | noReason
  | containerUpdateFailed
  | executorRegistrationTimeout
  | taskKilledDuringLaunch
  | invalidOffers
  deriving DecidableEq, Repr

/-- Modelled from the spec: a Status Update record (section 3):
task identity, state, source, reason and a monotonically-identifying
update UUID. -/
structure StatusUpdate where
  taskId : Nat
  state : TaskState
  source : StatusSource
  reason : StatusReason
  uuid : Nat
  deriving DecidableEq, Repr

/-- A controller endpoint identity, used for leader-affinity checks
(spec.md sections 4.4 and 4.5). -/
structure Endpoint where
  addr : Nat
  deriving DecidableEq, Repr

/-- Modelled from the spec: the per-task stream state kept jointly by the
Task State Machine (section 4.3) and the Status Update Manager (section 4.4)
of the missing `slave.cpp` / status update manager: the latest lifecycle
state, the durable ordered queue of not-yet-acknowledged updates (head is
the in-flight one), and the acknowledged updates (most recent first). -/
structure TaskStream where
  latestState : TaskState
  pending : List StatusUpdate
  acked : List StatusUpdate
  deriving DecidableEq, Repr

/-- Modelled from the spec: handling of a status update received from the
executor (section 4.3): an update for a task already in a terminal state is
silently ignored (first terminal wins); otherwise the latest state is
advanced and the update is appended to the durable per-task queue
(section 4.4, `update(status)`). -/
def handleExecutorUpdate (ts : TaskStream) (u : StatusUpdate) : TaskStream :=
  if ts.latestState.isTerminal then ts
  else { ts with latestState := u.state, pending := ts.pending ++ [u] }

/-- Modelled from the spec: the update (re)sent to the controller is always
the head of the pending queue (section 4.4, Forwarding); every retry resends
the identical update. -/
def retransmit (ts : TaskStream) : Option StatusUpdate :=
  ts.pending.head?

/-- Minimum interval of the status-update retry backoff (section 4.4). -/
def STATUS_UPDATE_RETRY_INTERVAL_MIN : Nat := 10

/-- Maximum interval of the status-update retry backoff (section 4.4). -/
def STATUS_UPDATE_RETRY_INTERVAL_MAX : Nat := 600

/-- Modelled from the spec: expiry of the retry timer with no
acknowledgement (section 4.4, Forwarding): resend the same head update and
re-arm the timer with an exponentially-bounded backoff capped at the
maximum interval.  The stream state itself is unchanged. -/
def retryExpire (ts : TaskStream) (timeout : Nat) :
    (TaskStream × Nat) × Option StatusUpdate :=
  ((ts, min (2 * timeout) STATUS_UPDATE_RETRY_INTERVAL_MAX), ts.pending.head?)

/-- Modelled from the spec: `acknowledge(taskID, updateUUID)`
(section 4.4): accepted only if it matches the head-of-queue update's
identifier and originates from the currently-leading controller endpoint;
a non-leading acknowledgement is discarded without side effects.  On
acceptance the head is popped and recorded as acknowledged. -/
def acknowledge (ts : TaskStream) (uuid : Nat) (sender leader : Endpoint) :
    TaskStream :=
  if sender ≠ leader then ts
  else
    match ts.pending with
    | [] => ts
    | u :: rest =>
      if u.uuid = uuid then { ts with pending := rest, acked := u :: ts.acked }
      else ts

lemma acknowledge_latestState (ts : TaskStream) (uuid : Nat)
    (sender leader : Endpoint) :
    (acknowledge ts uuid sender leader).latestState = ts.latestState := by
  unfold acknowledge
  split
  · rfl
  · split
    · rfl
    · split <;> rfl

lemma handleExecutorUpdate_of_terminal (ts : TaskStream) (u : StatusUpdate)
    (h : ts.latestState.isTerminal = true) :
    handleExecutorUpdate ts u = ts := by
  simp [handleExecutorUpdate, h]

/-- Claim C1: for every task, the first terminal status update received from
the executor is accepted; any later terminal update for the same task
identity — whether the first is still unacknowledged or already
acknowledged — is silently ignored and never enters the delivery queue, and
a retry re-delivers the first terminal update. -/
theorem duplicateTerminalUpdate_ignored (ts : TaskStream) (u1 u2 : StatusUpdate)
    (uuid : Nat) (sender leader : Endpoint)
    (h0 : ts.latestState.isTerminal = false)
    (hp : ts.pending = [])
    (h1 : u1.state.isTerminal = true)
    (h2 : u2.state.isTerminal = true) :
    (handleExecutorUpdate ts u1).pending = [u1] ∧
    (handleExecutorUpdate ts u1).latestState = u1.state ∧
    handleExecutorUpdate (handleExecutorUpdate ts u1) u2
      = handleExecutorUpdate ts u1 ∧
    handleExecutorUpdate
        (acknowledge (handleExecutorUpdate ts u1) uuid sender leader) u2
      = acknowledge (handleExecutorUpdate ts u1) uuid sender leader ∧
    retransmit (handleExecutorUpdate (handleExecutorUpdate ts u1) u2)
      = some u1 := by
  have hts1 : handleExecutorUpdate ts u1
      = { ts with latestState := u1.state, pending := [u1] } := by
    simp [handleExecutorUpdate, h0, hp]
  have hterm1 : (handleExecutorUpdate ts u1).latestState.isTerminal = true := by
    rw [hts1]; exact h1
  have hdup : handleExecutorUpdate (handleExecutorUpdate ts u1) u2
      = handleExecutorUpdate ts u1 :=
    handleExecutorUpdate_of_terminal _ _ hterm1
  have hackterm :
      (acknowledge (handleExecutorUpdate ts u1) uuid sender leader).latestState.isTerminal
        = true := by
    rw [acknowledge_latestState]; exact hterm1
  refine ⟨by rw [hts1], by rw [hts1], hdup, ?_, ?_⟩
  · exact handleExecutorUpdate_of_terminal _ _ hackterm
  · rw [hdup, hts1]; rfl

/-- Witness for C1 at a concrete stream and pair of terminal updates. -/
theorem duplicateTerminalUpdate_ignored_witness :
    (handleExecutorUpdate ⟨.running, [], []⟩
        ⟨1, .finished, .sourceExecutor, .noReason, 5⟩).pending
      = [⟨1, .finished, .sourceExecutor, .noReason, 5⟩] ∧
    (handleExecutorUpdate ⟨.running, [], []⟩
        ⟨1, .finished, .sourceExecutor, .noReason, 5⟩).latestState
      = TaskState.finished ∧
    handleExecutorUpdate
        (handleExecutorUpdate ⟨.running, [], []⟩
          ⟨1, .finished, .sourceExecutor, .noReason, 5⟩)
        ⟨1, .killed, .sourceExecutor, .noReason, 6⟩
      = handleExecutorUpdate ⟨.running, [], []⟩
          ⟨1, .finished, .sourceExecutor, .noReason, 5⟩ ∧
    handleExecutorUpdate
        (acknowledge
          (handleExecutorUpdate ⟨.running, [], []⟩
            ⟨1, .finished, .sourceExecutor, .noReason, 5⟩) 5 ⟨1⟩ ⟨1⟩)
        ⟨1, .killed, .sourceExecutor, .noReason, 6⟩
      = acknowledge
          (handleExecutorUpdate ⟨.running, [], []⟩
            ⟨1, .finished, .sourceExecutor, .noReason, 5⟩) 5 ⟨1⟩ ⟨1⟩ ∧
    retransmit
        (handleExecutorUpdate
          (handleExecutorUpdate ⟨.running, [], []⟩
            ⟨1, .finished, .sourceExecutor, .noReason, 5⟩)
          ⟨1, .killed, .sourceExecutor, .noReason, 6⟩)
      = some ⟨1, .finished, .sourceExecutor, .noReason, 5⟩ :=
  duplicateTerminalUpdate_ignored ⟨.running, [], []⟩
    ⟨1, .finished, .sourceExecutor, .noReason, 5⟩
    ⟨1, .killed, .sourceExecutor, .noReason, 6⟩ 5 ⟨1⟩ ⟨1⟩
    (by decide) rfl (by decide) (by decide)

/-- Claim C2: an acknowledgement whose sender is not the currently-leading
controller endpoint is discarded without side effects — the queue is
unchanged and the same head update is still the one retried — while a later
acknowledgement from the leading endpoint is processed normally (the head
is popped and recorded acknowledged). -/
theorem nonLeaderAck_discarded (ts : TaskStream) (uuid : Nat)
    (sender leader : Endpoint) (u : StatusUpdate) (rest : List StatusUpdate)
    (hs : sender ≠ leader)
    (hp : ts.pending = u :: rest)
    (hu : u.uuid = uuid) :
    acknowledge ts uuid sender leader = ts ∧
    retransmit (acknowledge ts uuid sender leader) = some u ∧
    acknowledge ts uuid leader leader
      = { ts with pending := rest, acked := u :: ts.acked } := by
  have hignore : acknowledge ts uuid sender leader = ts := by
    simp [acknowledge, hs]
  refine ⟨hignore, ?_, ?_⟩
  · rw [hignore, retransmit, hp]; rfl
  · simp [acknowledge, hp, hu]

/-- Witness for C2 at a concrete stream, spoofed sender and leader. -/
theorem nonLeaderAck_discarded_witness :
    acknowledge ⟨.running, [⟨1, .running, .sourceExecutor, .noReason, 3⟩], []⟩
        3 ⟨9⟩ ⟨1⟩
      = ⟨.running, [⟨1, .running, .sourceExecutor, .noReason, 3⟩], []⟩ ∧
    retransmit
        (acknowledge
          ⟨.running, [⟨1, .running, .sourceExecutor, .noReason, 3⟩], []⟩
          3 ⟨9⟩ ⟨1⟩)
      = some ⟨1, .running, .sourceExecutor, .noReason, 3⟩ ∧
    acknowledge ⟨.running, [⟨1, .running, .sourceExecutor, .noReason, 3⟩], []⟩
        3 ⟨1⟩ ⟨1⟩
      = ⟨.running, [], [⟨1, .running, .sourceExecutor, .noReason, 3⟩]⟩ :=
  nonLeaderAck_discarded
    ⟨.running, [⟨1, .running, .sourceExecutor, .noReason, 3⟩], []⟩
    3 ⟨9⟩ ⟨1⟩ ⟨1, .running, .sourceExecutor, .noReason, 3⟩ []
    (by decide) rfl rfl

/-- Claim C5: the original forwarding and every retransmission after a
retry-timer expiry carry the identical update (same identifier and
content); acknowledging any one of the identical copies clears the pending
state exactly once — the first matching leader acknowledgement pops the
update, and a repeated identical acknowledgement is a no-op. -/
theorem retryIdempotence (ts : TaskStream) (u : StatusUpdate)
    (leader : Endpoint) (timeout : Nat)
    (h0 : ts.latestState.isTerminal = false)
    (hp : ts.pending = []) :
    retransmit (handleExecutorUpdate ts u) = some u ∧
    (retryExpire (handleExecutorUpdate ts u) timeout).2 = some u ∧
    acknowledge (handleExecutorUpdate ts u) u.uuid leader leader
      = { handleExecutorUpdate ts u with
          pending := [], acked := u :: ts.acked } ∧
    acknowledge
        (acknowledge (handleExecutorUpdate ts u) u.uuid leader leader)
        u.uuid leader leader
      = acknowledge (handleExecutorUpdate ts u) u.uuid leader leader := by
  have hts1 : handleExecutorUpdate ts u
      = { ts with latestState := u.state, pending := [u] } := by
    simp [handleExecutorUpdate, h0, hp]
  have hack : acknowledge (handleExecutorUpdate ts u) u.uuid leader leader
      = { handleExecutorUpdate ts u with
          pending := [], acked := u :: ts.acked } := by
    rw [hts1]; simp [acknowledge]
  refine ⟨?_, ?_, hack, ?_⟩
  · rw [hts1]; rfl
  · rw [retryExpire, hts1]; rfl
  · rw [hack]; simp [acknowledge]

/-- Witness for C5 at a concrete stream and update. -/
theorem retryIdempotence_witness :
    retransmit
        (handleExecutorUpdate ⟨.staging, [], []⟩
          ⟨2, .running, .sourceExecutor, .noReason, 8⟩)
      = some ⟨2, .running, .sourceExecutor, .noReason, 8⟩ ∧
    (retryExpire
        (handleExecutorUpdate ⟨.staging, [], []⟩
          ⟨2, .running, .sourceExecutor, .noReason, 8⟩)
        STATUS_UPDATE_RETRY_INTERVAL_MIN).2
      = some ⟨2, .running, .sourceExecutor, .noReason, 8⟩ ∧
    acknowledge
        (handleExecutorUpdate ⟨.staging, [], []⟩
          ⟨2, .running, .sourceExecutor, .noReason, 8⟩) 8 ⟨1⟩ ⟨1⟩
      = { handleExecutorUpdate ⟨.staging, [], []⟩
            ⟨2, .running, .sourceExecutor, .noReason, 8⟩ with
          pending := [],
          acked := [⟨2, .running, .sourceExecutor, .noReason, 8⟩] } ∧
    acknowledge
        (acknowledge
          (handleExecutorUpdate ⟨.staging, [], []⟩
            ⟨2, .running, .sourceExecutor, .noReason, 8⟩) 8 ⟨1⟩ ⟨1⟩)
        8 ⟨1⟩ ⟨1⟩
      = acknowledge
          (handleExecutorUpdate ⟨.staging, [], []⟩
            ⟨2, .running, .sourceExecutor, .noReason, 8⟩) 8 ⟨1⟩ ⟨1⟩ :=
  retryIdempotence ⟨.staging, [], []⟩
    ⟨2, .running, .sourceExecutor, .noReason, 8⟩ ⟨1⟩
    STATUS_UPDATE_RETRY_INTERVAL_MIN (by decide) rfl

/-- Modelled from the spec: registration states of the Executor Supervisor
state machine (section 4.2); the implementing `slave.cpp` is not in the
sources. -/
inductive ExecState
  | registering
  | running
  | terminating
  | terminated
  deriving DecidableEq, Repr

/-- Observable effects emitted by the agent while handling executor events:
status updates to the controller, a shutdown request to the executor,
destruction of the process boundary, an executor-lost notification to the
scheduler, and invocations of the executor's task-launch path. -/
inductive AgentMsg
  | statusUpdate (u : StatusUpdate)
  | shutdownExecutor
  | destroyContainer
  | executorLost
  | launchTask (taskId : Nat)
  deriving DecidableEq, Repr

/-- Modelled from the spec: an Executor record (section 3): registration
state, the tasks queued while not yet RUNNING, and the tasks already
forwarded (launched). -/
structure Executor where
  state : ExecState
  queued : List Nat
  launched : List Nat
  deriving DecidableEq, Repr

/-- The status updates among a list of emitted agent effects. -/
def statusUpdates (ms : List AgentMsg) : List StatusUpdate :=
  ms.filterMap fun m =>
    match m with
    | .statusUpdate u => some u
    | _ => none

/-- The TASK_KILLED update generated by the agent for a task killed while
still queued on a not-yet-registered executor (section 4.2; reason pinned
by test SlaveTest.KillQueuedTaskDuringExecutorRegistration). -/
def killedUpdate (t uuid : Nat) : StatusUpdate :=
  ⟨t, .killed, .sourceSlave, .taskKilledDuringLaunch, uuid⟩

/-- Modelled from the spec: a kill request for a task still queued on an
executor that has not completed registration (section 4.2): the task is
removed from the queue and reported terminal (KILLED) directly, without
ever reaching the executor; when this leaves the executor with no tasks at
all, the agent shuts the executor down (shutdown request, executor-lost
notification, TERMINATING), as pinned by test
SlaveTest.KillQueuedTaskDuringExecutorRegistration. -/
def killQueuedTask (e : Executor) (t uuid : Nat) : Executor × List AgentMsg :=
  if e.state = .registering ∧ t ∈ e.queued then
    if e.queued.erase t = [] ∧ e.launched = [] then
      ({ e with state := .terminating, queued := [] },
        [.statusUpdate (killedUpdate t uuid), .shutdownExecutor,
         .executorLost])
    else
      ({ e with queued := e.queued.erase t },
        [.statusUpdate (killedUpdate t uuid)])
  else (e, [])

/-- Modelled from the spec: a successful registration handshake
(section 4.2) transitions a REGISTERING executor to RUNNING and flushes all
queued tasks to the executor; a handshake for an executor in any other
state (for example TERMINATING after its only queued task was killed) is
refused and flushes nothing. -/
def handleRegistration (e : Executor) : Executor × List AgentMsg :=
  if e.state = .registering then
    (⟨.running, [], e.launched ++ e.queued⟩, e.queued.map AgentMsg.launchTask)
  else (e, [])

lemma statusUpdates_launchMap (l : List Nat) :
    statusUpdates (l.map AgentMsg.launchTask) = [] := by
  induction l with
  | nil => rfl
  | cons x xs ih =>
    rw [List.map_cons]
    rw [statusUpdates, List.filterMap_cons]
    exact ih

/-- Claim C4: killing a task queued on an executor that has not yet
completed its registration handshake produces exactly one KILLED status
update, and the executor's task-launch path is never invoked for that task,
not even if the executor's registration completes afterwards. -/
theorem killQueuedTask_killedOnce (e : Executor) (t uuid : Nat)
    (h1 : e.state = .registering)
    (h2 : t ∈ e.queued)
    (h3 : e.queued.Nodup) :
    statusUpdates (killQueuedTask e t uuid).2 = [killedUpdate t uuid] ∧
    (killedUpdate t uuid).state = .killed ∧
    (killedUpdate t uuid).state.isTerminal = true ∧
    statusUpdates (handleRegistration (killQueuedTask e t uuid).1).2 = [] ∧
    AgentMsg.launchTask t ∉ (killQueuedTask e t uuid).2 ∧
    AgentMsg.launchTask t ∉ (handleRegistration (killQueuedTask e t uuid).1).2 := by
  have hcond : e.state = .registering ∧ t ∈ e.queued := ⟨h1, h2⟩
  have hmem : t ∉ e.queued.erase t := by
    intro hmem
    exact absurd ((h3.mem_erase_iff).1 hmem).1 (by simp)
  by_cases hempty : e.queued.erase t = [] ∧ e.launched = []
  · have hk : killQueuedTask e t uuid
        = ({ e with state := .terminating, queued := [] },
           [.statusUpdate (killedUpdate t uuid), .shutdownExecutor,
            .executorLost]) := by
      unfold killQueuedTask
      rw [if_pos hcond, if_pos hempty]
    have hr : handleRegistration (killQueuedTask e t uuid).1
        = ((killQueuedTask e t uuid).1, []) := by
      rw [hk]
      simp [handleRegistration]
    refine ⟨?_, rfl, rfl, ?_, ?_, ?_⟩
    · rw [hk]
      simp [statusUpdates, List.filterMap_cons]
    · rw [hr]
      rfl
    · rw [hk]
      simp
    · rw [hr]
      simp
  · have hk : killQueuedTask e t uuid
        = ({ e with queued := e.queued.erase t },
           [.statusUpdate (killedUpdate t uuid)]) := by
      unfold killQueuedTask
      rw [if_pos hcond, if_neg hempty]
    have hr : handleRegistration (killQueuedTask e t uuid).1
        = (⟨.running, [], e.launched ++ e.queued.erase t⟩,
           (e.queued.erase t).map AgentMsg.launchTask) := by
      rw [hk]
      simp [handleRegistration, h1]
    refine ⟨?_, rfl, rfl, ?_, ?_, ?_⟩
    · rw [hk]
      simp [statusUpdates, List.filterMap_cons]
    · rw [hr]
      exact statusUpdates_launchMap _
    · rw [hk]
      simp
    · rw [hr]
      intro hx
      rcases List.mem_map.1 hx with ⟨x, hxmem, hxeq⟩
      have hxt : x = t := by
        injection hxeq
      exact hmem (hxt ▸ hxmem)

/-- Witness for C4 at a concrete registering executor with one queued task. -/
theorem killQueuedTask_killedOnce_witness :
    statusUpdates (killQueuedTask ⟨.registering, [1], []⟩ 1 7).2
      = [killedUpdate 1 7] ∧
    (killedUpdate 1 7).state = .killed ∧
    (killedUpdate 1 7).state.isTerminal = true ∧
    statusUpdates
        (handleRegistration (killQueuedTask ⟨.registering, [1], []⟩ 1 7).1).2
      = [] ∧
    AgentMsg.launchTask 1 ∉ (killQueuedTask ⟨.registering, [1], []⟩ 1 7).2 ∧
    AgentMsg.launchTask 1
      ∉ (handleRegistration (killQueuedTask ⟨.registering, [1], []⟩ 1 7).1).2 :=
  killQueuedTask_killedOnce ⟨.registering, [1], []⟩ 1 7 rfl (by decide)
    (by decide)

/-- Claim C10: killing the only queued task of an executor still
REGISTERING reports the task KILLED with a task-killed-during-launch
reason and also shuts the executor itself down: a shutdown request is sent,
the executor is reported lost to the scheduler, the executor transitions to
TERMINATING, and its late registration handshake is refused. -/
theorem killOnlyQueuedTask_shutsDownExecutor (t uuid : Nat) :
    statusUpdates (killQueuedTask ⟨.registering, [t], []⟩ t uuid).2
      = [killedUpdate t uuid] ∧
    (killedUpdate t uuid).state = .killed ∧
    (killedUpdate t uuid).reason = .taskKilledDuringLaunch ∧
    AgentMsg.shutdownExecutor ∈ (killQueuedTask ⟨.registering, [t], []⟩ t uuid).2 ∧
    AgentMsg.executorLost ∈ (killQueuedTask ⟨.registering, [t], []⟩ t uuid).2 ∧
    (killQueuedTask ⟨.registering, [t], []⟩ t uuid).1.state = .terminating ∧
    handleRegistration (killQueuedTask ⟨.registering, [t], []⟩ t uuid).1
      = ((killQueuedTask ⟨.registering, [t], []⟩ t uuid).1, []) := by
  have hcond : (Executor.mk .registering [t] []).state = .registering
      ∧ t ∈ (Executor.mk .registering [t] []).queued := by
    exact ⟨rfl, by simp⟩
  have hempty : ((Executor.mk .registering [t] []).queued.erase t) = []
      ∧ (Executor.mk .registering [t] []).launched = [] := by
    simp
  have hk : killQueuedTask ⟨.registering, [t], []⟩ t uuid
      = ({ Executor.mk .registering [t] [] with
            state := .terminating, queued := [] },
         [.statusUpdate (killedUpdate t uuid), .shutdownExecutor,
          .executorLost]) := by
    unfold killQueuedTask
    rw [if_pos hcond, if_pos hempty]
  have hr : handleRegistration (killQueuedTask ⟨.registering, [t], []⟩ t uuid).1
      = ((killQueuedTask ⟨.registering, [t], []⟩ t uuid).1, []) := by
    rw [hk]
    simp [handleRegistration]
  refine ⟨?_, rfl, rfl, ?_, ?_, ?_, hr⟩ <;> rw [hk] <;>
    simp [statusUpdates, List.filterMap_cons]

/-- The TASK_FAILED update generated when the executor registration timer
expires (section 4.2; state, source and reason pinned by test
SlaveTest.ShutdownUnregisteredExecutor). -/
def registrationTimeoutUpdate (t uuid : Nat) : StatusUpdate :=
  ⟨t, .failed, .sourceSlave, .executorRegistrationTimeout, uuid⟩

/-- Modelled from the spec: expiry of the executor registration timer
before the handshake completes (section 4.2 and section 7 taxonomy (b)):
destroy the process boundary, fail every queued task with a
registration-timeout reason, notify the scheduler that the executor is
lost, and transition the executor to TERMINATED.  The `uuidOf` map supplies
the fresh update identifier chosen for each failed task. -/
def registrationTimeout (e : Executor) (uuidOf : Nat → Nat) :
    Executor × List AgentMsg :=
  if e.state = .registering then
    ({ e with state := .terminated, queued := [] },
      .destroyContainer ::
        (e.queued.map
          (fun t => .statusUpdate (registrationTimeoutUpdate t (uuidOf t)))
          ++ [.executorLost]))
  else (e, [])

/-- Claim C7: when an executor's registration timer expires before the
handshake completes, the agent destroys the executor's process boundary,
fails every queued task with a terminal status carrying the
registration-timeout reason and source slave, and notifies the scheduler
that the executor is lost. -/
theorem registrationTimeout_failsQueuedTasks (e : Executor)
    (uuidOf : Nat → Nat) (h : e.state = .registering) :
    (registrationTimeout e uuidOf).1.state = .terminated ∧
    AgentMsg.destroyContainer ∈ (registrationTimeout e uuidOf).2 ∧
    AgentMsg.executorLost ∈ (registrationTimeout e uuidOf).2 ∧
    (∀ t ∈ e.queued,
      AgentMsg.statusUpdate (registrationTimeoutUpdate t (uuidOf t))
        ∈ (registrationTimeout e uuidOf).2) ∧
    (∀ t uuid,
      (registrationTimeoutUpdate t uuid).state.isTerminal = true ∧
      (registrationTimeoutUpdate t uuid).source = .sourceSlave ∧
      (registrationTimeoutUpdate t uuid).reason
        = .executorRegistrationTimeout) := by
  refine ⟨?_, ?_, ?_, ?_, ?_⟩
  · simp [registrationTimeout, h]
  · simp [registrationTimeout, h]
  · simp [registrationTimeout, h]
  · intro t ht
    simp [registrationTimeout, h]
    exact ⟨t, ht, rfl⟩
  · intro t uuid
    exact ⟨rfl, rfl, rfl⟩

/-- Witness for C7 at a registering executor with two queued tasks. -/
theorem registrationTimeout_failsQueuedTasks_witness :
    (registrationTimeout ⟨.registering, [1, 2], []⟩ id).1.state
      = .terminated ∧
    AgentMsg.destroyContainer
      ∈ (registrationTimeout ⟨.registering, [1, 2], []⟩ id).2 ∧
    AgentMsg.executorLost
      ∈ (registrationTimeout ⟨.registering, [1, 2], []⟩ id).2 ∧
    (∀ t ∈ (Executor.mk .registering [1, 2] []).queued,
      AgentMsg.statusUpdate (registrationTimeoutUpdate t (id t))
        ∈ (registrationTimeout ⟨.registering, [1, 2], []⟩ id).2) ∧
    (∀ t uuid,
      (registrationTimeoutUpdate t uuid).state.isTerminal = true ∧
      (registrationTimeoutUpdate t uuid).source = .sourceSlave ∧
      (registrationTimeoutUpdate t uuid).reason
        = .executorRegistrationTimeout) :=
  registrationTimeout_failsQueuedTasks ⟨.registering, [1, 2], []⟩ id rfl

/-- The terminal state reported for a co-resident (collateral) task after a
container resource-update failure: GONE for a partition-aware framework,
LOST for a legacy framework (section 4.3). -/
def collateralState (partitionAware : Bool) : TaskState :=
  if partitionAware then .gone else .lost

/-- The status update generated for a collateral task of a failed container
resource update (section 4.3 and section 7 taxonomy (d); source and reason
pinned by tests SlaveTest.TerminalTaskContainerizerUpdateFailsWithLost and
SlaveTest.TerminalTaskContainerizerUpdateFailsWithGone). -/
def collateralUpdate (partitionAware : Bool) (t uuid : Nat) : StatusUpdate :=
  ⟨t, collateralState partitionAware, .sourceSlave, .containerUpdateFailed, uuid⟩

/-- The executor's own response to a kill request for a launched task: a
terminal KILLED update with source executor (section 4.3). -/
def executorKilledUpdate (t uuid : Nat) : StatusUpdate :=
  ⟨t, .killed, .sourceExecutor, .noReason, uuid⟩

/-- Modelled from the spec: the agent's handling of a terminal status
update from the executor (section 4.3): before recording it, the agent
updates the container's resource grant to the remaining tasks; if that
containerizer update fails, the process boundary is destroyed and every
task still assigned to the executor is failed with a
container-update-failure reason from source slave — GONE for a
partition-aware framework, LOST otherwise — and the executor is reported
lost.  The implementing `slave.cpp` is not in the sources; `uuidOf`
supplies the fresh update identifier per collateral task. -/
def handleTerminalUpdate (e : Executor) (u : StatusUpdate)
    (partitionAware : Bool) (containerUpdateOk : Bool) (uuidOf : Nat → Nat) :
    Executor × List AgentMsg :=
  if u.state.isTerminal = false then (e, [.statusUpdate u])
  else if containerUpdateOk then
    ({ e with launched := e.launched.erase u.taskId }, [.statusUpdate u])
  else
    ({ e with state := .terminated, queued := [], launched := [] },
      [.statusUpdate u, .destroyContainer] ++
        (e.launched.erase u.taskId).map
          (fun t => .statusUpdate (collateralUpdate partitionAware t (uuidOf t)))
        ++ [.executorLost])

/-- Claim C3: with two tasks sharing one executor, when killing the first
triggers a container resource-update failure, the killed task is reported
KILLED with source executor and the co-resident task is reported with
reason container-update-failed and source slave, its terminal state being
LOST for a non-partition-aware framework and GONE for a partition-aware
one. -/
theorem collateralFailureClassification (t1 t2 n : Nat) (pa : Bool)
    (uuidOf : Nat → Nat) :
    (handleTerminalUpdate ⟨.running, [], [t1, t2]⟩
        (executorKilledUpdate t1 n) pa false uuidOf).2
      = [.statusUpdate (executorKilledUpdate t1 n), .destroyContainer,
         .statusUpdate (collateralUpdate pa t2 (uuidOf t2)),
         .executorLost] ∧
    (executorKilledUpdate t1 n).state = .killed ∧
    (executorKilledUpdate t1 n).source = .sourceExecutor ∧
    (collateralUpdate pa t2 (uuidOf t2)).source = .sourceSlave ∧
    (collateralUpdate pa t2 (uuidOf t2)).reason = .containerUpdateFailed ∧
    (collateralUpdate pa t2 (uuidOf t2)).state
      = (if pa then .gone else .lost) ∧
    (collateralUpdate pa t2 (uuidOf t2)).state.isTerminal = true := by
  refine ⟨?_, rfl, rfl, rfl, rfl, rfl, ?_⟩
  · simp [handleTerminalUpdate, executorKilledUpdate, TaskState.isTerminal,
      List.erase_cons_head]
  · cases pa <;> rfl

/-- A provider-backed resource reference carried by a task launch: the
provider identity and the resource version the controller last saw for the
provider (section 4.6). -/
structure ProviderResource where
  providerId : Nat
  version : Nat
  deriving DecidableEq, Repr

/-- A task launch request: the task identity and the provider-backed
resources it references, each carrying the version from the offer. -/
structure TaskLaunch where
  taskId : Nat
  resources : List ProviderResource
  deriving DecidableEq, Repr

/-- Modelled from the spec: the launch-time resource-version check
(sections 4.3 and 4.6): every provider-backed resource referenced by the
task must carry the agent's current version for that provider. -/
def checkResourceVersions (agentVersions : Nat → Nat) (t : TaskLaunch) :
    Bool :=
  t.resources.all fun r => agentVersions r.providerId == r.version

/-- Modelled from the spec: launching a task (section 4.3): a resource
version mismatch fails the task immediately with an invalid-offer reason
(terminal status from source slave, TASK_LOST as pinned by test
SlaveTest.RunTaskResourceVersions) instead of forwarding it to an executor;
otherwise the task identifier is forwarded.  The implementing `slave.cpp`
is not in the sources. -/
def runTask (agentVersions : Nat → Nat) (t : TaskLaunch) (uuid : Nat) :
    Except StatusUpdate Nat :=
  if checkResourceVersions agentVersions t then .ok t.taskId
  else .error ⟨t.taskId, .lost, .sourceSlave, .invalidOffers, uuid⟩

/-- Claim C6: a task launch referencing provider-backed resources whose
carried version differs from the agent's current version for that provider
is failed immediately with an invalid-offer reason — a terminal status from
source slave — and is never forwarded to an executor. -/
theorem runTask_staleResourceVersion (agentVersions : Nat → Nat)
    (t : TaskLaunch) (uuid : Nat) (r : ProviderResource)
    (hr : r ∈ t.resources)
    (hv : agentVersions r.providerId ≠ r.version) :
    runTask agentVersions t uuid
      = .error ⟨t.taskId, .lost, .sourceSlave, .invalidOffers, uuid⟩ ∧
    (StatusUpdate.mk t.taskId .lost .sourceSlave .invalidOffers uuid).state.isTerminal
      = true ∧
    (∀ fwd, runTask agentVersions t uuid ≠ .ok fwd) := by
  have hcheck : checkResourceVersions agentVersions t = false := by
    unfold checkResourceVersions
    rw [List.all_eq_false]
    exact ⟨r, hr, by simpa using hv⟩
  have hrun : runTask agentVersions t uuid
      = .error ⟨t.taskId, .lost, .sourceSlave, .invalidOffers, uuid⟩ := by
    unfold runTask
    rw [hcheck]
    rfl
  refine ⟨hrun, rfl, ?_⟩
  intro fwd hok
  rw [hrun] at hok
  exact Except.noConfusion hok

/-- Witness for C6 at a concrete launch carrying a stale version. -/
theorem runTask_staleResourceVersion_witness :
    runTask (fun _ => 4) ⟨1, [⟨5, 3⟩]⟩ 7
      = .error ⟨1, .lost, .sourceSlave, .invalidOffers, 7⟩ ∧
    (StatusUpdate.mk 1 .lost .sourceSlave .invalidOffers 7).state.isTerminal
      = true ∧
    (∀ fwd, runTask (fun _ => 4) ⟨1, [⟨5, 3⟩]⟩ 7 ≠ .ok fwd) :=
  runTask_staleResourceVersion (fun _ => 4) ⟨1, [⟨5, 3⟩]⟩ 7 ⟨5, 3⟩
    (by decide) (by decide)

/-- The per-task entry of the agent's re-registration message: the task's
latest lifecycle state, and the state and identifier of one status update
of the task (section 4.4). -/
structure ReregisterTaskEntry where
  latestState : TaskState
  statusUpdateState : Option TaskState
  statusUpdateUuid : Option Nat
  deriving DecidableEq, Repr

/-- Modelled from the spec: the per-task content of the re-registration
message built by the missing `slave.cpp`; the field contents are pinned by
test SlaveTest.ReregisterWithStatusUpdateTaskState (src/src/tests/
slave_tests.cpp): the carried status-update state and identifier are those
of the head of the not-yet-acknowledged queue (in the test, a TASK_RUNNING
update whose acknowledgement was dropped), while the latest state may be
ahead of it. -/
def reregisterEntry (ts : TaskStream) : ReregisterTaskEntry :=
  { latestState := ts.latestState
  , statusUpdateState := ts.pending.head?.map StatusUpdate.state
  , statusUpdateUuid := ts.pending.head?.map StatusUpdate.uuid }

/-- Follows the spec's words (section 4.4) for comparison: the
re-registration entry would carry the task's last acknowledged state and
that update's identifier. -/
def reregisterEntrySpecWords (ts : TaskStream) : ReregisterTaskEntry :=
  { latestState := ts.latestState
  , statusUpdateState := ts.acked.head?.map StatusUpdate.state
  , statusUpdateUuid := ts.acked.head?.map StatusUpdate.uuid }

/-- The stream of the re-registration test scenario: a TASK_RUNNING update
is forwarded but its acknowledgement never arrives, then a TASK_FINISHED
update is enqueued behind it. -/
def reregisterScenarioStream : TaskStream :=
  handleExecutorUpdate
    (handleExecutorUpdate ⟨.staging, [], []⟩
      ⟨1, .running, .sourceExecutor, .noReason, 11⟩)
    ⟨1, .finished, .sourceExecutor, .noReason, 12⟩

/-- Counterexample to claim C9 as stated: in the re-registration scenario
of the test, the entry carries the state and identifier of the TASK_RUNNING
update even though no update of the task was ever acknowledged, so the
carried state is not the task's last acknowledged state. -/
theorem reregisterEntry_not_lastAcknowledged :
    (reregisterEntry reregisterScenarioStream).statusUpdateState
      = some .running ∧
    (reregisterEntry reregisterScenarioStream).statusUpdateUuid = some 11 ∧
    reregisterScenarioStream.acked = [] ∧
    reregisterEntrySpecWords reregisterScenarioStream
      ≠ reregisterEntry reregisterScenarioStream := by
  decide

/-- Claim C9 as amended: for every task with at least one unacknowledged
status update, the agent's re-registration entry carries both the task's
latest lifecycle state (which may be ahead of what has been acknowledged)
and the state of the oldest unacknowledged status update together with that
update's identifier. -/
theorem reregisterEntry_latest_and_pending (ts : TaskStream)
    (u : StatusUpdate) (rest : List StatusUpdate)
    (hp : ts.pending = u :: rest) :
    reregisterEntry ts
      = ⟨ts.latestState, some u.state, some u.uuid⟩ := by
  unfold reregisterEntry
  rw [hp]
  rfl

/-- Witness for the amended C9 at the test scenario's stream. -/
theorem reregisterEntry_latest_and_pending_witness :
    reregisterEntry reregisterScenarioStream
      = ⟨TaskState.finished,
         some (StatusUpdate.mk 1 .running .sourceExecutor .noReason 11).state,
         some (StatusUpdate.mk 1 .running .sourceExecutor .noReason 11).uuid⟩ :=
  reregisterEntry_latest_and_pending reregisterScenarioStream
    ⟨1, .running, .sourceExecutor, .noReason, 11⟩
    [⟨1, .finished, .sourceExecutor, .noReason, 12⟩] (by decide)

/-- The agent-side health-check state (section 4.5): time units elapsed
since the last observed controller ping, counted from (re-)registration. -/
structure HealthState where
  sinceLastPing : Nat
  deriving DecidableEq, Repr

/-- Messages emitted by the agent's health protocol: a pong answering a
ping, a controller (re-)detection, and a re-registration message. -/
inductive HealthMsg
  | pong
  | detected
  | reregistered
  deriving DecidableEq, Repr

/-- Events observed by the agent's health protocol: a controller ping, or
the passing of one unit of time. -/
inductive HealthEvent
  | ping
  | tick
  deriving DecidableEq, Repr

/-- Modelled from the spec: one step of the agent-side health protocol
(section 4.5); the implementing `slave.cpp` is not in the sources.  Every
received ping is answered immediately with a pong and resets the observed
window; if `w` time units (the configured bounded multiple of the expected
ping interval) pass with no ping, the agent re-runs controller detection
and re-registers, arming a fresh window. -/
def healthStep (w : Nat) (s : HealthState) :
    HealthEvent → HealthState × List HealthMsg
  | .ping => (⟨0⟩, [.pong])
  | .tick =>
    if s.sinceLastPing + 1 ≥ w then (⟨0⟩, [.detected, .reregistered])
    else (⟨s.sinceLastPing + 1⟩, [])

/-- Run of the health protocol over a list of events, collecting the
emitted messages. -/
def healthRun (w : Nat) (s : HealthState) :
    List HealthEvent → HealthState × List HealthMsg
  | [] => (s, [])
  | e :: es =>
    ((healthRun w (healthStep w s e).1 es).1,
      (healthStep w s e).2 ++ (healthRun w (healthStep w s e).1 es).2)

lemma healthRun_append (w : Nat) (s : HealthState)
    (a b : List HealthEvent) :
    healthRun w s (a ++ b)
      = ((healthRun w (healthRun w s a).1 b).1,
         (healthRun w s a).2 ++ (healthRun w (healthRun w s a).1 b).2) := by
  induction a generalizing s with
  | nil => simp [healthRun]
  | cons e es ih =>
    simp only [List.cons_append, healthRun, List.append_eq]
    rw [ih]
    simp only [List.append_assoc]

lemma healthRun_ticks_count (w : Nat) (hw : 0 < w) (m : HealthMsg)
    (hm : m = .detected ∨ m = .reregistered) :
    ∀ (n k : Nat), k < w →
      ((healthRun w ⟨k⟩ (List.replicate n .tick)).2.count m) = (k + n) / w := by
  intro n
  induction n with
  | zero =>
    intro k hk
    simp [healthRun]
    exact (Nat.div_eq_of_lt hk).symm
  | succ n ih =>
    intro k hk
    rw [List.replicate_succ]
    by_cases h : k + 1 ≥ w
    · have hkw : k + 1 = w := Nat.le_antisymm hk h
      have hstep : healthStep w ⟨k⟩ .tick = (⟨0⟩, [.detected, .reregistered]) := by
        simp [healthStep, h]
      rw [healthRun, hstep]
      have hcount : ([HealthMsg.detected, HealthMsg.reregistered]).count m = 1 := by
        rcases hm with hm | hm <;> rw [hm] <;> rfl
      rw [List.count_append, hcount, ih 0 hw]
      have harith : k + (n + 1) = n + w := by omega
      rw [harith, Nat.add_div_right n hw, Nat.zero_add]
      omega
    · have hk1 : k + 1 < w := Nat.lt_of_not_le h
      have hstep : healthStep w ⟨k⟩ .tick = (⟨k + 1⟩, []) := by
        simp [healthStep, h]
      rw [healthRun, hstep]
      rw [List.count_append]
      have : ([] : List HealthMsg).count m = 0 := rfl
      rw [this, ih (k + 1) hk1]
      have harith : k + (n + 1) = (k + 1) + n := by omega
      rw [harith, Nat.zero_add]

lemma healthRun_after_ping (w : Nat) (s : HealthState)
    (es : List HealthEvent) :
    (healthRun w s (es ++ [.ping])).1 = ⟨0⟩ := by
  rw [healthRun_append]
  rfl

/-- Claim C8: whenever the agent observes no controller ping for the
configured timeout window of `w` time units — whether no ping was ever
received after registering, or pings stopped after some were received — it
re-runs controller detection and re-registers, producing exactly one
detection and one re-registration message per outage (an outage being a
gap of at least `w` and less than `2 * w` units with no ping). -/
theorem pingTimeout_reregistersOnce (w n : Nat) (es : List HealthEvent)
    (hw : 0 < w) (hlo : w ≤ n) (hhi : n < 2 * w) :
    (healthRun w ⟨0⟩ (List.replicate n .tick)).2.count .reregistered = 1 ∧
    (healthRun w ⟨0⟩ (List.replicate n .tick)).2.count .detected = 1 ∧
    (healthRun w ⟨0⟩ ((es ++ [.ping]) ++ List.replicate n .tick)).2.count
        .reregistered
      = (healthRun w ⟨0⟩ (es ++ [.ping])).2.count .reregistered + 1 := by
  have hdiv : n / w = 1 := by
    apply Nat.div_eq_of_lt_le
    · simpa using hlo
    · simpa [Nat.succ_mul, Nat.two_mul] using hhi
  have hticks : ∀ m : HealthMsg, m = .detected ∨ m = .reregistered →
      (healthRun w ⟨0⟩ (List.replicate n .tick)).2.count m = 1 := by
    intro m hm
    rw [healthRun_ticks_count w hw m hm n 0 hw]
    simpa using hdiv
  refine ⟨hticks _ (Or.inr rfl), hticks _ (Or.inl rfl), ?_⟩
  rw [healthRun_append, List.count_append, healthRun_after_ping]
  rw [hticks _ (Or.inr rfl)]

/-- Witness for C8 with a window of 2 units, an outage of 3 units and one
earlier ping. -/
theorem pingTimeout_reregistersOnce_witness :
    (healthRun 2 ⟨0⟩ (List.replicate 3 .tick)).2.count .reregistered = 1 ∧
    (healthRun 2 ⟨0⟩ (List.replicate 3 .tick)).2.count .detected = 1 ∧
    (healthRun 2 ⟨0⟩ (([.ping] ++ [.ping]) ++ List.replicate 3 .tick)).2.count
        .reregistered
      = (healthRun 2 ⟨0⟩ ([.ping] ++ [.ping])).2.count .reregistered + 1 :=
  pingTimeout_reregistersOnce 2 3 [.ping] (by decide) (by decide) (by decide)

end Mesos
